import Mathlib

/-!
Shallow embedding of `src/code/arcaders-1-5/src/views/mod.rs`.

The module defines two stateless views, `ViewA` and `ViewB`.  Each
implements `render(&mut self, context: &mut Phi, _: f64) -> ViewAction`:
it first tests the termination conditions (`events.now.quit` or
escape pressed), then the switch condition (space pressed), and
otherwise sets the draw color and clears the renderer.

The surrounding engine types (`Phi`, its `events` and `renderer`) are
external to the file; they are modelled from the spec's description of
the consumed interface.  The drawing surface is modelled as a trace of
issued drawing commands: `set_draw_color` and `clear` append to the
trace, so "the surface received exactly these calls" is an equation on
the trace.
-/

/-- Modelled from the spec: the color value passed to the drawing surface;
the source constructs it with `Color::RGB(r, g, b)`. -/
inductive Color where
  | RGB (r g b : Nat)
deriving DecidableEq

/-- Modelled from the spec: the drawing commands the context's surface
accepts, `set_draw_color(color)` followed by `clear()`. -/
inductive RenderCmd where
  | set_draw_color (c : Color)
  | clear
deriving DecidableEq

/-- Modelled from the spec: the current frame's input snapshot, with
quit-requested as a boolean and the escape/space key states as
boolean-valued optionals (the `events.now` record read by `render`). -/
structure ImmediateEvents where
  quit : Bool
  key_escape : Option Bool
  key_space : Option Bool
deriving DecidableEq

/-- Modelled from the spec: the events component of the context; `render`
only reads its `now` snapshot. -/
structure Events where
  now : ImmediateEvents
deriving DecidableEq

/-- Modelled from the spec: the shared context `Phi`, holding the drawing
surface (as the trace of commands it has received) and the input events. -/
structure Phi where
  renderer : List RenderCmd
  events : Events
deriving DecidableEq

/-- The two view types of the module; both are stateless unit structs in
the source, so a tag is a full representation of a view value. -/
inductive GameView where
  | ViewA
  | ViewB
deriving DecidableEq

/-- The action returned by a render call: continue with no change, switch
to a newly constructed view, or terminate. -/
inductive ViewAction where
  | None
  | ChangeView (v : GameView)
  | Quit
deriving DecidableEq

/-- `ViewA::render` from the source: quit or escape pressed returns
`Quit`; space pressed returns `ChangeView(Box::new(ViewB))`; otherwise
sets the draw color to red `(255,0,0)`, clears, and returns `None`.
The returned `Phi` carries the renderer trace extended by the issued
drawing commands. -/
def ViewA.render (context : Phi) (_ : Float) : ViewAction × Phi :=
  let events := context.events
  if events.now.quit = true ∨ events.now.key_escape = some true then
    (ViewAction.Quit, context)
  else if events.now.key_space = some true then
    (ViewAction.ChangeView GameView.ViewB, context)
  else
    (ViewAction.None,
      { context with renderer := context.renderer ++
          [RenderCmd.set_draw_color (Color.RGB 255 0 0), RenderCmd.clear] })

/-- `ViewB::render` from the source: identical structure to `ViewA`,
with clear color blue `(0,0,255)` and switch target `ViewA`. -/
def ViewB.render (context : Phi) (_ : Float) : ViewAction × Phi :=
  let events := context.events
  if events.now.quit = true ∨ events.now.key_escape = some true then
    (ViewAction.Quit, context)
  else if events.now.key_space = some true then
    (ViewAction.ChangeView GameView.ViewA, context)
  else
    (ViewAction.None,
      { context with renderer := context.renderer ++
          [RenderCmd.set_draw_color (Color.RGB 0 0 255), RenderCmd.clear] })

/-- Dynamic dispatch over the two views: `v.render` calls the render
implementation of the tagged view. -/
def GameView.render : GameView → Phi → Float → ViewAction × Phi
  | GameView.ViewA => ViewA.render
  | GameView.ViewB => ViewB.render

/-- The designated clear color of each view: red for `ViewA`, blue for
`ViewB`. -/
def GameView.clearColor : GameView → Color
  | GameView.ViewA => Color.RGB 255 0 0
  | GameView.ViewB => Color.RGB 0 0 255

/-- The switch target of each view: the other view. -/
def GameView.other : GameView → GameView
  | GameView.ViewA => GameView.ViewB
  | GameView.ViewB => GameView.ViewA

/-- C1: for every view, context and delta-time, if the input snapshot
reports quit-requested, `render` returns the terminate action,
regardless of the escape-key and space-key fields. -/
theorem render_quit_terminates (v : GameView) (context : Phi) (dt : Float)
    (h : context.events.now.quit = true) :
    (GameView.render v context dt).1 = ViewAction.Quit := by
  cases v <;> simp [GameView.render, ViewA.render, ViewB.render, h]

/-- C1 witness: at a concrete context with quit-requested set (and both
keys pressed), `ViewA.render` terminates. -/
theorem render_quit_terminates_witness :
    (GameView.render GameView.ViewA
      ⟨[], ⟨⟨true, some true, some true⟩⟩⟩ 0).1 = ViewAction.Quit :=
  render_quit_terminates GameView.ViewA ⟨[], ⟨⟨true, some true, some true⟩⟩⟩ 0 rfl

/-- C2: for every view, context and delta-time, if quit-requested is
false and the escape key reports pressed, `render` returns the
terminate action. -/
theorem render_escape_terminates (v : GameView) (context : Phi) (dt : Float)
    (hq : context.events.now.quit = false)
    (he : context.events.now.key_escape = some true) :
    (GameView.render v context dt).1 = ViewAction.Quit := by
  cases v <;> simp [GameView.render, ViewA.render, ViewB.render, hq, he]

/-- C2 witness: at a concrete context with only escape pressed,
`ViewB.render` terminates. -/
theorem render_escape_terminates_witness :
    (GameView.render GameView.ViewB
      ⟨[], ⟨⟨false, some true, Option.none⟩⟩⟩ 0).1 = ViewAction.Quit :=
  render_escape_terminates GameView.ViewB
    ⟨[], ⟨⟨false, some true, Option.none⟩⟩⟩ 0 rfl rfl

/-- C3: with quit-requested false, escape not pressed and space pressed,
each view's `render` returns a switch action carrying the other view:
`ViewA` switches to a newly constructed `ViewB` and vice versa. -/
theorem render_space_switches_to_other (v : GameView) (context : Phi) (dt : Float)
    (hq : context.events.now.quit = false)
    (he : context.events.now.key_escape ≠ some true)
    (hs : context.events.now.key_space = some true) :
    (GameView.render v context dt).1 = ViewAction.ChangeView v.other := by
  cases v <;>
    simp [GameView.render, ViewA.render, ViewB.render, GameView.other, hq, he, hs]

/-- C3 witness: at a concrete context with only space pressed,
`ViewA.render` switches to `ViewB`. -/
theorem render_space_switches_to_other_witness :
    (GameView.render GameView.ViewA
      ⟨[], ⟨⟨false, Option.none, some true⟩⟩⟩ 0).1 =
      ViewAction.ChangeView (GameView.other GameView.ViewA) :=
  render_space_switches_to_other GameView.ViewA
    ⟨[], ⟨⟨false, Option.none, some true⟩⟩⟩ 0 rfl (by decide) rfl

/-- C4: with quit-requested false and neither escape nor space pressed,
`render` returns the no-change action and the surface receives exactly
one set-clear-color call with the view's designated color followed by
exactly one clear call, and nothing else. -/
theorem render_allfalse_draws (v : GameView) (context : Phi) (dt : Float)
    (hq : context.events.now.quit = false)
    (he : context.events.now.key_escape ≠ some true)
    (hs : context.events.now.key_space ≠ some true) :
    GameView.render v context dt =
      (ViewAction.None,
        { context with renderer := context.renderer ++
            [RenderCmd.set_draw_color v.clearColor, RenderCmd.clear] }) := by
  cases v <;>
    simp [GameView.render, ViewA.render, ViewB.render, GameView.clearColor, hq, he, hs]

/-- C4 witness: at a concrete all-false context, `ViewB.render` returns
no-change and appends exactly the blue set-color and clear commands. -/
theorem render_allfalse_draws_witness :
    GameView.render GameView.ViewB
      ⟨[], ⟨⟨false, Option.none, some false⟩⟩⟩ 0 =
      (ViewAction.None,
        ⟨[RenderCmd.set_draw_color (GameView.clearColor GameView.ViewB), RenderCmd.clear],
          ⟨⟨false, Option.none, some false⟩⟩⟩) :=
  render_allfalse_draws GameView.ViewB
    ⟨[], ⟨⟨false, Option.none, some false⟩⟩⟩ 0 rfl (by decide) (by decide)

/-- C5: when a termination condition (quit-requested or escape pressed)
holds at the same time as the space key being pressed, `render` returns
the terminate action, not the switch action. -/
theorem render_terminate_beats_switch (v : GameView) (context : Phi) (dt : Float)
    (h : context.events.now.quit = true ∨ context.events.now.key_escape = some true)
    (_hs : context.events.now.key_space = some true) :
    (GameView.render v context dt).1 = ViewAction.Quit ∧
    ∀ w, (GameView.render v context dt).1 ≠ ViewAction.ChangeView w := by
  have hq : (GameView.render v context dt).1 = ViewAction.Quit := by
    cases v <;> simp only [GameView.render, ViewA.render, ViewB.render] <;>
      rw [if_pos h]
  exact ⟨hq, fun w hw => by rw [hq] at hw; exact ViewAction.noConfusion hw⟩

/-- C5 witness: at a concrete context with both escape and space pressed,
`ViewA.render` terminates rather than switching. -/
theorem render_terminate_beats_switch_witness :
    (GameView.render GameView.ViewA
      ⟨[], ⟨⟨false, some true, some true⟩⟩⟩ 0).1 = ViewAction.Quit ∧
    ∀ w, (GameView.render GameView.ViewA
      ⟨[], ⟨⟨false, some true, some true⟩⟩⟩ 0).1 ≠ ViewAction.ChangeView w :=
  render_terminate_beats_switch GameView.ViewA
    ⟨[], ⟨⟨false, some true, some true⟩⟩⟩ 0 (Or.inr rfl) rfl

/-- C6: `render` is total: for every view, context and delta-time it
returns exactly one of the three actions (no change, switch, terminate);
there is no error branch. -/
theorem render_total (v : GameView) (context : Phi) (dt : Float) :
    (GameView.render v context dt).1 = ViewAction.None ∨
    (∃ w, (GameView.render v context dt).1 = ViewAction.ChangeView w) ∨
    (GameView.render v context dt).1 = ViewAction.Quit := by
  cases h : (GameView.render v context dt).1 with
  | None => exact Or.inl rfl
  | ChangeView w => exact Or.inr (Or.inl ⟨w, rfl⟩)
  | Quit => exact Or.inr (Or.inr rfl)

/-- C7: the delta-time parameter is ignored: for every view and context,
any two delta-time values yield the same action and the same drawing
command trace. -/
theorem render_ignores_dt (v : GameView) (context : Phi) (d1 d2 : Float) :
    GameView.render v context d1 = GameView.render v context d2 := by
  cases v <;> rfl

/-- C8: round trip of the two-state machine: under the space condition,
rendering `ViewA` yields a switch to some view, and rendering that view
under the space condition yields a switch back to `ViewA`. -/
theorem render_space_round_trip (ctx1 ctx2 : Phi) (d1 d2 : Float)
    (hq1 : ctx1.events.now.quit = false)
    (he1 : ctx1.events.now.key_escape ≠ some true)
    (hs1 : ctx1.events.now.key_space = some true)
    (hq2 : ctx2.events.now.quit = false)
    (he2 : ctx2.events.now.key_escape ≠ some true)
    (hs2 : ctx2.events.now.key_space = some true) :
    ∃ w, (GameView.render GameView.ViewA ctx1 d1).1 = ViewAction.ChangeView w ∧
      (GameView.render w ctx2 d2).1 = ViewAction.ChangeView GameView.ViewA := by
  refine ⟨GameView.ViewB, ?_, ?_⟩ <;>
    simp [GameView.render, ViewA.render, ViewB.render, hq1, he1, hs1, hq2, he2, hs2]

/-- C8 witness: at a concrete space-pressed context, two consecutive
space-triggered switches return to `ViewA`. -/
theorem render_space_round_trip_witness :
    ∃ w, (GameView.render GameView.ViewA
        ⟨[], ⟨⟨false, Option.none, some true⟩⟩⟩ 0).1 = ViewAction.ChangeView w ∧
      (GameView.render w ⟨[], ⟨⟨false, Option.none, some true⟩⟩⟩ 0).1 =
        ViewAction.ChangeView GameView.ViewA :=
  render_space_round_trip ⟨[], ⟨⟨false, Option.none, some true⟩⟩⟩
    ⟨[], ⟨⟨false, Option.none, some true⟩⟩⟩ 0 0
    rfl (by decide) rfl rfl (by decide) rfl

/-- C9: an absent key state and an explicit not-pressed key state are
treated identically: replacing `key_escape = none` with `some false`, or
`key_space = none` with `some false`, leaves the action and the drawing
command trace of `render` unchanged. -/
theorem render_none_eq_some_false (v : GameView) (r : List RenderCmd)
    (q : Bool) (ke ks : Option Bool) (dt : Float) :
    ((GameView.render v ⟨r, ⟨⟨q, Option.none, ks⟩⟩⟩ dt).1 =
        (GameView.render v ⟨r, ⟨⟨q, some false, ks⟩⟩⟩ dt).1 ∧
      (GameView.render v ⟨r, ⟨⟨q, Option.none, ks⟩⟩⟩ dt).2.renderer =
        (GameView.render v ⟨r, ⟨⟨q, some false, ks⟩⟩⟩ dt).2.renderer) ∧
    ((GameView.render v ⟨r, ⟨⟨q, ke, Option.none⟩⟩⟩ dt).1 =
        (GameView.render v ⟨r, ⟨⟨q, ke, some false⟩⟩⟩ dt).1 ∧
      (GameView.render v ⟨r, ⟨⟨q, ke, Option.none⟩⟩⟩ dt).2.renderer =
        (GameView.render v ⟨r, ⟨⟨q, ke, some false⟩⟩⟩ dt).2.renderer) := by
  cases v <;> cases q <;>
    rcases ke with _ | (_ | _) <;> rcases ks with _ | (_ | _) <;>
    exact ⟨⟨rfl, rfl⟩, ⟨rfl, rfl⟩⟩

/-- C10: whenever `render` returns the terminate or switch action it
issues no drawing commands: the context, including the surface's
command trace, is returned unchanged. -/
theorem render_no_draw_unless_none (v : GameView) (context : Phi) (dt : Float)
    (h : (GameView.render v context dt).1 ≠ ViewAction.None) :
    (GameView.render v context dt).2 = context := by
  cases v <;>
    by_cases h1 : context.events.now.quit = true ∨ context.events.now.key_escape = some true <;>
    by_cases h2 : context.events.now.key_space = some true <;>
    simp_all [GameView.render, ViewA.render, ViewB.render]

/-- C10 witness: at a concrete context where `ViewA.render` switches,
the context comes back unchanged. -/
theorem render_no_draw_unless_none_witness :
    (GameView.render GameView.ViewA
      ⟨[], ⟨⟨false, Option.none, some true⟩⟩⟩ 0).2 =
      ⟨[], ⟨⟨false, Option.none, some true⟩⟩⟩ :=
  render_no_draw_unless_none GameView.ViewA
    ⟨[], ⟨⟨false, Option.none, some true⟩⟩⟩ 0 (by decide)
